import Mathlib

/-!
# Verification of the Mujin vision controller client

Shallow embedding of `mujinvisioncontrollerclient/visioncontrollerclient.py`:
the command execution and response-validation protocol of
`VisionControllerClient`, together with command payload construction of the
high-level operations and the teardown (`Destroy`) logic.

External collaborators (the zmq request channel's `SendCommand` /
`ReceiveCommand` / `IsWaitingReply`, and `json.loads`) are not code of this
repository; they appear as explicit function parameters of the embedded
operations, so every theorem quantifies over their behaviour.
-/

set_option autoImplicit false

namespace VisionClient

/-- Python values as they occur in command payloads and responses. -/
inductive PyValue where
  | str : String → PyValue
  | int : Int → PyValue
  | bool : Bool → PyValue
  | none : PyValue
  | dict : List (String × PyValue) → PyValue
  | list : List PyValue → PyValue

/-- A Python `dict` with string keys, modelled as an association list in
insertion order (Python 3 dicts preserve insertion order). -/
abbrev Dict := List (String × PyValue)

/-- Python truthiness (`if x:`) for the values above. -/
def pyTruthy : PyValue → Bool
  | .str s => s ≠ ""
  | .int n => n ≠ 0
  | .bool b => b
  | .none => false
  | .dict d => !d.isEmpty
  | .list l => !l.isEmpty

/-- Python `x is None` for a value: identity with the `None` singleton. -/
def isNone : PyValue → Bool
  | .none => true
  | _ => false

/-- Python `x is True` for a value: identity with the `True` singleton. -/
def isTrue : PyValue → Bool
  | .bool true => true
  | _ => false

/-- Membership `k in d` for a Python dict. -/
def dictContains (d : Dict) (k : String) : Bool :=
  match d with
  | [] => false
  | p :: t => p.1 = k || dictContains t k

/-- Lookup `d.get(k, dflt)` for a Python dict (keys are unique in a Python dict, so
taking the first match is exact). -/
def dictGetD (d : Dict) (k : String) (dflt : PyValue) : PyValue :=
  match d with
  | [] => dflt
  | p :: t => if p.1 = k then p.2 else dictGetD t k dflt

/-- Assignment `d[k] = v` for a Python dict: replaces the value at an existing key in
place, otherwise appends the new pair at the end. -/
def dictSet (d : Dict) (k : String) (v : PyValue) : Dict :=
  if dictContains d k then d.map (fun p => if p.1 = k then (k, v) else p)
  else d ++ [(k, v)]

/-- Update `d.update(other)` for a Python dict. -/
def dictUpdate (d other : Dict) : Dict :=
  other.foldl (fun acc p => dictSet acc p.1 p.2) d

/-- Length `len(d)` for a Python dict. -/
def dictLen (d : Dict) : Nat := d.length

/-- Structural model of the messages the client formats into its exceptions.
The Python code interpolates these data into human-readable strings; the
embedding keeps the interpolated data instead of the rendered text, so that
"carries X" claims are statements about the constructor's fields. -/
inductive ErrMsg where
  /-- carries the `desc` value of a structured error response (`_HandleError`, dict case) -/
  | ofValue : PyValue → ErrMsg
  /-- models `'Got unknown error from vision manager: %r' % response['error']` -/
  | unknownErrorFromVisionManager : PyValue → ErrMsg
  /-- models `'Vision command %(command)s failed with empty response %(response)r'` -/
  | emptyResponse : Option Dict → PyValue → ErrMsg
  /-- models `'Waiting on command "%(commandName)s" when wait signal is not on'` -/
  | invalidWait : PyValue → ErrMsg
  /-- models `'Timed out after %.03f seconds to get response message %s from %s:%d: %s'`
  carrying (timeout, commandName, hostname, commandport, underlying cause) -/
  | timedOut : Option ℚ → PyValue → String → Int → String → ErrMsg
  /-- models `'Problem receiving response from the last vision manager async call %s: %s'`
  carrying (commandName, underlying cause) -/
  | recvProblem : PyValue → String → ErrMsg

/-- The exceptions the client raises: `VisionControllerClientError(message,
errortype=...)` and its subclass `VisionControllerTimeoutError`. -/
inductive VCException where
  | clientError : ErrMsg → PyValue → VCException
  | timeoutError : ErrMsg → PyValue → VCException

/-- A response from the request channel: either already decoded into a mapping
(the `recvjson=True` paths, where `SendCommand`/`ReceiveCommand` hand back a
parsed dict) or the raw text payload (the `recvjson=False` paths). The
constructor plays the role of the `recvjson` flag of `_ProcessResponse`, which
always matches the payload shape the transport produced. -/
inductive Response where
  | decoded : Dict → Response
  | raw : String → Response

/-- The success value `_ProcessResponse` returns (a dict or the raw text). -/
def Response.toPyValue : Response → PyValue
  | .decoded d => .dict d
  | .raw s => .str s

/-- Embeds `_HandleError` of `_ProcessResponse`: `response['error']` is either a
mapping (raise with its `desc`, default `''`, and `type`, default `''`) or an
opaque value (raise `unknownerror` embedding the raw value). -/
def HandleError (errVal : PyValue) : VCException :=
  match errVal with
  | .dict ed =>
      .clientError (.ofValue (dictGetD ed "desc" (.str "")))
        (dictGetD ed "type" (.str ""))
  | _ => .clientError (.unknownErrorFromVisionManager errVal) (.str "unknownerror")

/-- Embeds `_ProcessResponse(response, command, recvjson)`. `jsonLoads` stands for
the external `json.loads`, restricted to the object-shaped payloads this code
path feeds it. Raising is modelled as `Except.error`. -/
def ProcessResponse (jsonLoads : String → Dict) (response : Response)
    (command : Option Dict) : Except VCException PyValue :=
  match response with
  | .decoded d =>
      if dictContains d "error" then .error (HandleError (dictGetD d "error" .none))
      else .ok (.dict d)
  | .raw s =>
      if s.length > 0 ∧ s.front = '\x7b' ∧ s.back = '\x7d' then
        -- response = json.loads(response); the emptiness check below is then
        -- applied to the decoded mapping, not to the original raw text
        let d := jsonLoads s
        if dictContains d "error" then .error (HandleError (dictGetD d "error" .none))
        else if dictLen d = 0 then
          .error (.clientError (.emptyResponse command (.dict d)) (.str "emptyresponseerror"))
        else .ok (.dict d)
      else if s.length = 0 then
        .error (.clientError (.emptyResponse command (.str s)) (.str "emptyresponseerror"))
      else .ok (.str s)

/-- Truthiness of `self._callerid` (`if self._callerid:`), a string or None. -/
def calleridTruthy : Option String → Bool
  | Option.none => false
  | some s => s ≠ ""

/-- The caller-id injection at the top of `_ExecuteCommand` and
`_SendConfiguration`: `if self._callerid: command['callerid'] = self._callerid`. -/
def injectCallerid (callerid : Option String) (command : Dict) : Dict :=
  if calleridTruthy callerid then
    dictSet command "callerid" (.str (callerid.getD ""))
  else command

/-- Embeds `_ExecuteCommand(command, fireandforget, ..., blockwait)`. `sendCommand`
stands for the external `self._commandsocket.SendCommand`, mapping the (already
caller-id-augmented) command and the two flags to the transport's return value. -/
def ExecuteCommand (jsonLoads : String → Dict)
    (sendCommand : Dict → Bool → Bool → Response)
    (callerid : Option String) (command : Dict)
    (fireandforget blockwait : Bool) : Except VCException PyValue :=
  let command := injectCallerid callerid command
  let response := sendCommand command fireandforget blockwait
  if blockwait ∧ ¬fireandforget then
    ProcessResponse jsonLoads response (some command)
  else .ok response.toPyValue

/-- Embeds `_SendConfiguration(configuration, fireandforget, ...)`. `sendCommand`
stands for the external `self._configurationsocket.SendCommand`. -/
def SendConfiguration (jsonLoads : String → Dict)
    (sendCommand : Dict → Bool → Response)
    (callerid : Option String) (configuration : Dict)
    (fireandforget : Bool) : Except VCException PyValue :=
  let configuration := injectCallerid callerid configuration
  let response := sendCommand configuration fireandforget
  if ¬fireandforget then
    ProcessResponse jsonLoads response (some configuration)
  else .ok response.toPyValue

/-- Outcome of the external `self._commandsocket.ReceiveCommand`: a response,
a raised `TimeoutError`, or any other raised exception (each carrying the
exception's text). -/
inductive RecvOutcome where
  | ok : Response → RecvOutcome
  | timeoutExc : String → RecvOutcome
  | otherExc : String → RecvOutcome

/-- Embeds `commandName = ''; if command is not None and isinstance(command, dict):
commandName = command.get('command') or ''` at the top of `_WaitForResponse`. -/
def commandNameOf : Option Dict → PyValue
  | some c =>
      let v := dictGetD c "command" .none
      if pyTruthy v then v else .str ""
  | Option.none => .str ""

/-- Embeds `_WaitForResponse(recvjson, timeout, command)`. `isWaitingReply` is the
external `self._commandsocket.IsWaitingReply()`; `receiveCommand` is the
external `self._commandsocket.ReceiveCommand` as a function of the timeout. -/
def WaitForResponse (jsonLoads : String → Dict) (isWaitingReply : Bool)
    (receiveCommand : Option ℚ → RecvOutcome)
    (hostname : String) (commandport : Int)
    (timeout : Option ℚ) (command : Option Dict) : Except VCException PyValue :=
  let commandName := commandNameOf command
  if ¬isWaitingReply then
    .error (.clientError (.invalidWait commandName) (.str "invalidwait"))
  else
    match receiveCommand timeout with
    | .ok response => ProcessResponse jsonLoads response command
    | .timeoutExc e =>
        .error (.timeoutError (.timedOut timeout commandName hostname commandport e)
          (.str "timeout"))
    | .otherExc e =>
        .error (.clientError (.recvProblem commandName e) (.str "unknownerror"))

/-! ## Teardown (`Destroy`) -/

/-- Which of the owned resources' release calls raise. `Destroy()` calls
`self._commandsocket.Destroy()`, `self._configurationsocket.Destroy()`,
`self._subscriber.Destroy()` and `self._ctxown.destroy()`; each flag says
whether that external call raises an exception when invoked. -/
structure DestroyBehavior where
  commandsocketFails : Bool
  configurationsocketFails : Bool
  subscriberFails : Bool
  ctxownFails : Bool
deriving DecidableEq

/-- The client's resource references: `True` means the attribute still holds a
live reference, `False` means it has been set to `None`. -/
structure ClientState where
  commandsocket : Bool
  configurationsocket : Bool
  subscriber : Bool
  ctxown : Bool
  ctx : Bool
deriving DecidableEq

/-- The fully-torn-down state: every reference cleared. -/
def clearedState : ClientState :=
  { commandsocket := false, configurationsocket := false, subscriber := false,
    ctxown := false, ctx := false }

/-- Embeds `Destroy()`. Returns the state after the call and whether an exception
propagated out of it. The command socket, configuration socket and owned
context are each released inside `try/except` (a failure is logged and the
reference is left set, since the `= None` assignment inside the `try` is
skipped); the subscriber release has no `try/except`, so its failure
propagates, skipping the owned-context release and the `self._ctx = None`
assignment. `SetDestroy()` only signals the sockets and touches no reference. -/
def Destroy (b : DestroyBehavior) (s : ClientState) : ClientState × Bool :=
  let s1 := if s.commandsocket then
      (if b.commandsocketFails then s else { s with commandsocket := false })
    else s
  let s2 := if s1.configurationsocket then
      (if b.configurationsocketFails then s1 else { s1 with configurationsocket := false })
    else s1
  if s2.subscriber ∧ b.subscriberFails then
    (s2, true)
  else
    let s3 := if s2.subscriber then { s2 with subscriber := false } else s2
    let s4 := if s3.ctxown then
        (if b.ctxownFails then s3 else { s3 with ctxown := false })
      else s3
    ({ s4 with ctx := false }, false)

/-! ## High-level command builders -/

/-- Arguments of `StopTask` that flow into the payload. Defaults mirror the
Python signature (`None` for the filters, `True`/`False` for the flags);
inclusion of each filter is decided by `if <arg>:` truthiness in the source. -/
structure StopTaskArgs where
  taskId : PyValue := .none
  taskIds : PyValue := .none
  taskType : PyValue := .none
  taskTypes : PyValue := .none
  cycleIndex : PyValue := .none
  waitForStop : PyValue := .bool true
  removeTask : PyValue := .bool false

/-- The payload built by `StopTask` before it is handed to `_ExecuteCommand`. -/
def buildStopTaskCommand (a : StopTaskArgs) : Dict :=
  let command : Dict := [("command", .str "StopTask"),
                         ("waitForStop", a.waitForStop),
                         ("removeTask", a.removeTask)]
  let command := if pyTruthy a.taskId then dictSet command "taskId" a.taskId else command
  let command := if pyTruthy a.taskIds then dictSet command "taskIds" a.taskIds else command
  let command := if pyTruthy a.taskType then dictSet command "taskType" a.taskType else command
  let command := if pyTruthy a.taskTypes then dictSet command "taskTypes" a.taskTypes else command
  let command := if pyTruthy a.cycleIndex then dictSet command "cycleIndex" a.cycleIndex else command
  command

/-- Arguments of `StartObjectDetectionTask` that flow into the payload.
Defaults mirror the Python signature: most optionals default to `None` and are
included when `is not None` (or, for `taskId`, when truthy), while
`targetupdatename=""`, `maxnumfastdetection=1` and `maxnumdetection=0` have
non-`None` defaults. `waitForTrigger` is accepted but never written into the
payload. -/
structure StartObjectDetectionTaskArgs where
  vminitparams : Dict := []
  taskId : PyValue := .none
  locationName : PyValue := .none
  ignoreocclusion : PyValue := .none
  targetDynamicDetectorParameters : PyValue := .none
  detectionstarttimestamp : PyValue := .none
  locale : PyValue := .none
  maxnumfastdetection : PyValue := .int 1
  maxnumdetection : PyValue := .int 0
  stopOnNotNeedContainer : PyValue := .none
  targetupdatename : PyValue := .str ""
  numthreads : PyValue := .none
  cycleIndex : PyValue := .none
  ignorePlanningState : PyValue := .none
  ignoreDetectionFileUpdateChange : PyValue := .none
  sendVerificationPointCloud : PyValue := .none
  forceClearRegion : PyValue := .none
  detectionTriggerMode : PyValue := .none
  useLocationState : PyValue := .none
  kwargs : Dict := []

/-- The payload built by `StartObjectDetectionTask` before it is handed to
`_ExecuteCommand`. -/
def buildStartObjectDetectionTaskCommand (a : StartObjectDetectionTaskArgs) : Dict :=
  let command : Dict := [("command", .str "StartObjectDetectionTask"),
                         ("targetupdatename", a.targetupdatename)]
  let command := dictUpdate command a.vminitparams
  let command := if !isNone a.locationName then dictSet command "locationName" a.locationName else command
  let command := if pyTruthy a.taskId then dictSet command "taskId" a.taskId else command
  let command := if !isNone a.ignoreocclusion then
      dictSet command "ignoreocclusion" (if isTrue a.ignoreocclusion then .int 1 else .int 0)
    else command
  let command := if !isNone a.targetDynamicDetectorParameters then
      dictSet command "targetDynamicDetectorParameters" a.targetDynamicDetectorParameters else command
  let command := if !isNone a.detectionstarttimestamp then
      dictSet command "detectionstarttimestamp" a.detectionstarttimestamp else command
  let command := if !isNone a.locale then dictSet command "locale" a.locale else command
  let command := if !isNone a.sendVerificationPointCloud then
      dictSet command "sendVerificationPointCloud" a.sendVerificationPointCloud else command
  let command := if !isNone a.stopOnNotNeedContainer then
      dictSet command "stopOnNotNeedContainer" a.stopOnNotNeedContainer else command
  let command := if !isNone a.maxnumdetection then
      dictSet command "maxnumdetection" a.maxnumdetection else command
  let command := if !isNone a.maxnumfastdetection then
      dictSet command "maxnumfastdetection" a.maxnumfastdetection else command
  let command := if !isNone a.numthreads then dictSet command "numthreads" a.numthreads else command
  let command := if !isNone a.cycleIndex then dictSet command "cycleIndex" a.cycleIndex else command
  let command := if !isNone a.ignorePlanningState then
      dictSet command "ignorePlanningState" a.ignorePlanningState else command
  let command := if !isNone a.ignoreDetectionFileUpdateChange then
      dictSet command "ignoreDetectionFileUpdateChange" a.ignoreDetectionFileUpdateChange else command
  let command := if !isNone a.forceClearRegion then
      dictSet command "forceClearRegion" a.forceClearRegion else command
  let command := if !isNone a.detectionTriggerMode then
      dictSet command "detectionTriggerMode" a.detectionTriggerMode else command
  let command := if !isNone a.useLocationState then
      dictSet command "useLocationState" a.useLocationState else command
  dictUpdate command a.kwargs

/-- Python `isinstance(x, dict)` for a value. -/
def PyValue.isDict : PyValue → Bool
  | .dict _ => true
  | _ => false

/-- The `errortype` attribute of a raised exception. -/
def VCException.errortype : VCException → PyValue
  | .clientError _ t => t
  | .timeoutError _ t => t

/-- A concrete instance of the external `json.loads` on the JSON object texts
used by the spec's examples, for exercising the theorems at concrete inputs:
`"\x7b\"result\":1\x7d"` decodes to `{"result": 1}` and every other input
(in particular `"\x7b\x7d"`) decodes to the empty mapping. -/
def jsonLoads0 : String → Dict := fun s =>
  if s = "\x7b\"result\":1\x7d" then [("result", .int 1)]
  else []

/-! ## Association-list (Python dict) lemmas -/

theorem dictContains_map (d : Dict) (k k' : String) (v : PyValue) :
    dictContains (d.map (fun p => if p.1 = k then (k, v) else p)) k' = dictContains d k' := by
  induction d with
  | nil => rfl
  | cons p t ih =>
      by_cases hp : p.1 = k
      · simp [dictContains, hp, ih]
      · simp [dictContains, hp, ih]

theorem dictContains_append (d₁ d₂ : Dict) (k : String) :
    dictContains (d₁ ++ d₂) k = (dictContains d₁ k || dictContains d₂ k) := by
  induction d₁ with
  | nil => rfl
  | cons p t ih => simp [dictContains, ih, Bool.or_assoc]

theorem dictContains_dictSet (d : Dict) (k k' : String) (v : PyValue) :
    dictContains (dictSet d k v) k' = (dictContains d k' || decide (k' = k)) := by
  unfold dictSet
  by_cases h : dictContains d k = true
  · rw [if_pos h, dictContains_map]
    by_cases hk : k' = k
    · subst hk; simp [h]
    · simp [hk]
  · rw [if_neg h, dictContains_append]
    by_cases hk : k' = k
    · subst hk; simp [dictContains]
    · simp [dictContains, hk, Ne.symm hk]

theorem dictGetD_map_ne (d : Dict) (k k' : String) (v dflt : PyValue) (hk : k' ≠ k) :
    dictGetD (d.map (fun p => if p.1 = k then (k, v) else p)) k' dflt = dictGetD d k' dflt := by
  induction d with
  | nil => rfl
  | cons p t ih =>
      by_cases hp : p.1 = k
      · simp [dictGetD, hp, Ne.symm hk, ih]
      · simp [dictGetD, hp, ih]

theorem dictGetD_dictSet_ne (d : Dict) (k k' : String) (v dflt : PyValue) (hk : k' ≠ k) :
    dictGetD (dictSet d k v) k' dflt = dictGetD d k' dflt := by
  unfold dictSet
  by_cases h : dictContains d k = true
  · rw [if_pos h, dictGetD_map_ne _ _ _ _ _ hk]
  · rw [if_neg h]
    induction d with
    | nil => simp [dictGetD, Ne.symm hk]
    | cons p t ih =>
        by_cases hp : p.1 = k'
        · simp [dictGetD, hp]
        · simp only [dictContains, Bool.or_eq_true, not_or] at h
          simp [dictGetD, hp, ih (by simpa using h.2)]

theorem dictGetD_dictSet_self (d : Dict) (k : String) (v dflt : PyValue) :
    dictGetD (dictSet d k v) k dflt = v := by
  unfold dictSet
  by_cases h : dictContains d k = true
  · rw [if_pos h]
    induction d with
    | nil => simp [dictContains] at h
    | cons p t ih =>
        by_cases hp : p.1 = k
        · simp [dictGetD, hp]
        · simp only [dictContains, Bool.or_eq_true] at h
          rcases h with h | h
          · exact absurd (of_decide_eq_true h) hp
          · simp [dictGetD, hp]
            exact ih (by simp [h])
  · rw [if_neg h]
    induction d with
    | nil => simp [dictGetD]
    | cons p t ih =>
        simp only [dictContains, Bool.or_eq_true, not_or] at h
        have hp : ¬p.1 = k := by simpa using h.1
        simp [dictGetD, hp]
        exact ih (by simp [h.2])

theorem dictUpdate_cons (d : Dict) (p : String × PyValue) (t : Dict) :
    dictUpdate d (p :: t) = dictUpdate (dictSet d p.1 p.2) t := rfl

theorem dictContains_dictUpdate_notin (d other : Dict) (k : String)
    (h : dictContains other k = false) :
    dictContains (dictUpdate d other) k = dictContains d k := by
  induction other generalizing d with
  | nil => rfl
  | cons p t ih =>
      simp only [dictContains, Bool.or_eq_false_iff] at h
      rw [dictUpdate_cons, ih _ h.2, dictContains_dictSet]
      have hk : ¬k = p.1 := by
        intro hk
        simp [hk] at h
      simp [hk]

theorem dictGetD_dictUpdate_notin (d other : Dict) (k : String) (dflt : PyValue)
    (h : dictContains other k = false) :
    dictGetD (dictUpdate d other) k dflt = dictGetD d k dflt := by
  induction other generalizing d with
  | nil => rfl
  | cons p t ih =>
      simp only [dictContains, Bool.or_eq_false_iff] at h
      rw [dictUpdate_cons, ih _ h.2, dictGetD_dictSet_ne]
      intro hk
      simp [hk] at h

/-! ## Claim theorems: response validation and waiting -/

/-- C1: every structured (pre-decoded) response mapping containing an
`error` key makes validation fail: with a typed error carrying `desc`
(default `''`) and `type` (default `''`) when the error value is a mapping,
and with the `unknownerror` kind embedding the raw error value otherwise;
uniformly on the command path (`_ExecuteCommand`) and the configuration path
(`_SendConfiguration`). -/
theorem execute_error_response_fails (jsonLoads : String → Dict)
    (sendCmd : Dict → Bool → Bool → Response) (sendCfg : Dict → Bool → Response)
    (callerid : Option String) (command configuration : Dict) (d : Dict)
    (herr : dictContains d "error" = true) :
    (∀ cmd, ProcessResponse jsonLoads (.decoded d) cmd
        = .error (HandleError (dictGetD d "error" .none)))
    ∧ (∀ ed, dictGetD d "error" .none = .dict ed →
        HandleError (dictGetD d "error" .none)
          = .clientError (.ofValue (dictGetD ed "desc" (.str "")))
              (dictGetD ed "type" (.str "")))
    ∧ ((dictGetD d "error" .none).isDict = false →
        HandleError (dictGetD d "error" .none)
          = .clientError (.unknownErrorFromVisionManager (dictGetD d "error" .none))
              (.str "unknownerror"))
    ∧ (sendCmd (injectCallerid callerid command) false true = .decoded d →
        ExecuteCommand jsonLoads sendCmd callerid command false true
          = .error (HandleError (dictGetD d "error" .none)))
    ∧ (sendCfg (injectCallerid callerid configuration) false = .decoded d →
        SendConfiguration jsonLoads sendCfg callerid configuration false
          = .error (HandleError (dictGetD d "error" .none))) := by
  refine ⟨?_, ?_, ?_, ?_, ?_⟩
  · intro cmd
    simp [ProcessResponse, herr]
  · intro ed h
    rw [h]
    rfl
  · intro h
    cases hv : dictGetD d "error" PyValue.none <;> try rfl
    simp [hv, PyValue.isDict] at h
  · intro h
    simp [ExecuteCommand, h, ProcessResponse, herr]
  · intro h
    simp [SendConfiguration, h, ProcessResponse, herr]

/-- Witness for `execute_error_response_fails` at the spec's two examples:
`{"error": {"desc": "X", "type": "Y"}}` and `{"error": "oops"}`. -/
theorem execute_error_response_fails_witness :
    dictContains [("error", PyValue.dict [("desc", PyValue.str "X"), ("type", PyValue.str "Y")])] "error" = true
    ∧ ProcessResponse jsonLoads0
        (.decoded [("error", PyValue.dict [("desc", PyValue.str "X"), ("type", PyValue.str "Y")])]) Option.none
        = .error (.clientError (.ofValue (.str "X")) (.str "Y"))
    ∧ ProcessResponse jsonLoads0 (.decoded [("error", PyValue.str "oops")]) Option.none
        = .error (.clientError (.unknownErrorFromVisionManager (.str "oops")) (.str "unknownerror")) := by
  refine ⟨rfl, ?_, ?_⟩
  · have h := execute_error_response_fails jsonLoads0 (fun _ _ _ => .raw "") (fun _ _ => .raw "")
      Option.none [] [] [("error", PyValue.dict [("desc", PyValue.str "X"), ("type", PyValue.str "Y")])] rfl
    rw [h.1 Option.none]
    rfl
  · have h := execute_error_response_fails jsonLoads0 (fun _ _ _ => .raw "") (fun _ _ => .raw "")
      Option.none [] [] [("error", PyValue.str "oops")] rfl
    rw [h.1 Option.none]
    rfl

/-- C2: `_ExecuteCommand` validates the response if and only if the call
is blocking and not fire-and-forget: with `fireandforget` it returns the
transport's value unvalidated, with `blockwait=False` (and not
fire-and-forget) it returns the raw transport acknowledgement unvalidated,
and otherwise it returns the validated (`_ProcessResponse`) result. -/
theorem executeCommand_validates_iff_blocking (jsonLoads : String → Dict)
    (sendCommand : Dict → Bool → Bool → Response) (callerid : Option String)
    (command : Dict) (fireandforget blockwait : Bool) :
    (fireandforget = true →
      ExecuteCommand jsonLoads sendCommand callerid command fireandforget blockwait
        = .ok (sendCommand (injectCallerid callerid command) fireandforget blockwait).toPyValue)
    ∧ (blockwait = false →
      ExecuteCommand jsonLoads sendCommand callerid command fireandforget blockwait
        = .ok (sendCommand (injectCallerid callerid command) fireandforget blockwait).toPyValue)
    ∧ (blockwait = true → fireandforget = false →
      ExecuteCommand jsonLoads sendCommand callerid command fireandforget blockwait
        = ProcessResponse jsonLoads
            (sendCommand (injectCallerid callerid command) fireandforget blockwait)
            (some (injectCallerid callerid command))) := by
  refine ⟨?_, ?_, ?_⟩
  · intro h; subst h; simp [ExecuteCommand]
  · intro h; subst h; simp [ExecuteCommand]
  · intro hb hf; subst hb; subst hf; simp [ExecuteCommand]

/-- Witness for `executeCommand_validates_iff_blocking`: a channel replying
`{"status": "ok"}`; fire-and-forget and deferred calls return the raw value,
the blocking call returns the validated mapping. -/
theorem executeCommand_validates_iff_blocking_witness :
    ExecuteCommand jsonLoads0 (fun _ _ _ => .decoded [("status", PyValue.str "ok")])
        Option.none [("command", PyValue.str "Ping")] true false
      = .ok (.dict [("status", PyValue.str "ok")])
    ∧ ExecuteCommand jsonLoads0 (fun _ _ _ => .decoded [("status", PyValue.str "ok")])
        Option.none [("command", PyValue.str "Ping")] false false
      = .ok (.dict [("status", PyValue.str "ok")])
    ∧ ExecuteCommand jsonLoads0 (fun _ _ _ => .decoded [("status", PyValue.str "ok")])
        Option.none [("command", PyValue.str "Ping")] false true
      = .ok (.dict [("status", PyValue.str "ok")]) := by
  refine ⟨?_, ?_, ?_⟩
  · rw [(executeCommand_validates_iff_blocking jsonLoads0
      (fun _ _ _ => .decoded [("status", PyValue.str "ok")]) Option.none
      [("command", PyValue.str "Ping")] true false).1 rfl]
    rfl
  · rw [(executeCommand_validates_iff_blocking jsonLoads0
      (fun _ _ _ => .decoded [("status", PyValue.str "ok")]) Option.none
      [("command", PyValue.str "Ping")] false false).2.1 rfl]
    rfl
  · rw [(executeCommand_validates_iff_blocking jsonLoads0
      (fun _ _ _ => .decoded [("status", PyValue.str "ok")]) Option.none
      [("command", PyValue.str "Ping")] false true).2.2 rfl rfl]
    rfl

/-- C3: for every timeout (and every receive behaviour, so no receive is
ever consulted), `_WaitForResponse` with the request channel not awaiting a
reply fails with the `invalidwait` kind. -/
theorem waitForResponse_invalidWait (jsonLoads : String → Dict)
    (receiveCommand : Option ℚ → RecvOutcome) (hostname : String) (commandport : Int)
    (timeout : Option ℚ) (command : Option Dict) :
    WaitForResponse jsonLoads false receiveCommand hostname commandport timeout command
      = .error (.clientError (.invalidWait (commandNameOf command)) (.str "invalidwait")) := by
  simp [WaitForResponse]

/-- C4: when the underlying receive raises a transport timeout,
`_WaitForResponse` fails with the dedicated timeout exception
(`VisionControllerTimeoutError`, kind `timeout`) carrying the timeout
duration, the command name, and the channel endpoint (host and port). -/
theorem waitForResponse_timeout (jsonLoads : String → Dict)
    (receiveCommand : Option ℚ → RecvOutcome) (hostname : String) (commandport : Int)
    (timeout : Option ℚ) (command : Option Dict) (e : String)
    (h : receiveCommand timeout = .timeoutExc e) :
    WaitForResponse jsonLoads true receiveCommand hostname commandport timeout command
      = .error (.timeoutError
          (.timedOut timeout (commandNameOf command) hostname commandport e)
          (.str "timeout")) := by
  simp [WaitForResponse, h]

/-- Witness for `waitForResponse_timeout` at a concrete channel and timeout. -/
theorem waitForResponse_timeout_witness :
    (fun _ : Option ℚ => RecvOutcome.timeoutExc "timed out") (some 2)
      = RecvOutcome.timeoutExc "timed out"
    ∧ WaitForResponse jsonLoads0 true (fun _ => RecvOutcome.timeoutExc "timed out")
        "visioncontroller1" 7004 (some 2) (some [("command", PyValue.str "Ping")])
      = .error (.timeoutError
          (.timedOut (some 2) (.str "Ping") "visioncontroller1" 7004 "timed out")
          (.str "timeout")) := by
  refine ⟨rfl, ?_⟩
  rw [waitForResponse_timeout jsonLoads0 (fun _ => RecvOutcome.timeoutExc "timed out")
    "visioncontroller1" 7004 (some 2) (some [("command", PyValue.str "Ping")]) "timed out" rfl]
  rfl

/-- C5 counterexample: a non-timeout transport failure in
`_WaitForResponse` is raised with the `unknownerror` kind — the very same kind
`_HandleError` uses for unrecognized error values — not a communication-error
kind distinct from it, contradicting the claim. -/
theorem waitForResponse_otherFailure_counterexample :
    WaitForResponse jsonLoads0 true (fun _ => RecvOutcome.otherExc "connection reset")
        "visioncontroller1" 7004 Option.none Option.none
      = .error (.clientError (.recvProblem (.str "") "connection reset") (.str "unknownerror"))
    ∧ VCException.errortype
        (.clientError (.recvProblem (.str "") "connection reset") (.str "unknownerror"))
      = VCException.errortype (HandleError (.str "oops")) := by
  exact ⟨rfl, rfl⟩

/-- C5 amended: when the underlying receive raises any transport failure
other than a timeout, `_WaitForResponse` fails with a
`VisionControllerClientError` carrying the command name and the underlying
cause, raised with the `unknownerror` kind (the same kind string used for
unrecognized error values), not a distinct communication-error kind. -/
theorem waitForResponse_otherFailure_unknownerror (jsonLoads : String → Dict)
    (receiveCommand : Option ℚ → RecvOutcome) (hostname : String) (commandport : Int)
    (timeout : Option ℚ) (command : Option Dict) (e : String)
    (h : receiveCommand timeout = .otherExc e) :
    WaitForResponse jsonLoads true receiveCommand hostname commandport timeout command
      = .error (.clientError (.recvProblem (commandNameOf command) e) (.str "unknownerror")) := by
  simp [WaitForResponse, h]

/-- Witness for `waitForResponse_otherFailure_unknownerror`. -/
theorem waitForResponse_otherFailure_unknownerror_witness :
    (fun _ : Option ℚ => RecvOutcome.otherExc "socket closed") (some 2)
      = RecvOutcome.otherExc "socket closed"
    ∧ WaitForResponse jsonLoads0 true (fun _ => RecvOutcome.otherExc "socket closed")
        "visioncontroller1" 7004 (some 2) (some [("command", PyValue.str "Ping")])
      = .error (.clientError (.recvProblem (.str "Ping") "socket closed") (.str "unknownerror")) := by
  refine ⟨rfl, ?_⟩
  rw [waitForResponse_otherFailure_unknownerror jsonLoads0
    (fun _ => RecvOutcome.otherExc "socket closed") "visioncontroller1" 7004 (some 2)
    (some [("command", PyValue.str "Ping")]) "socket closed" rfl]
  rfl

/-- C6 counterexample: the raw response `"{}"` is non-empty, brace
delimited, decodes to the empty mapping with no `error` key — yet validation
does not return the decoded mapping: it fails with the `emptyresponseerror`
kind, because the emptiness check is applied to the decoded mapping. -/
theorem processResponse_raw_counterexample :
    ("\x7b\x7d" : String) ≠ ""
    ∧ jsonLoads0 "\x7b\x7d" = ([] : Dict)
    ∧ dictContains (jsonLoads0 "\x7b\x7d") "error" = false
    ∧ ProcessResponse jsonLoads0 (.raw "\x7b\x7d") Option.none
        = .error (.clientError (.emptyResponse Option.none (.dict [])) (.str "emptyresponseerror")) := by
  refine ⟨by decide, rfl, rfl, ?_⟩
  rfl

/-- C6 amended: for every raw (non-pre-decoded) response: if it is
non-empty and its first and last characters are `{` and `}`, it is decoded and
the structured error check is applied to the decoded mapping, returning the
decoded mapping when no `error` key is present *and the decoded mapping is
non-empty* (an empty decoded mapping fails with the `emptyresponseerror` kind);
an empty raw response fails with the `emptyresponseerror` kind naming the
offending command; any other raw response is returned unchanged. -/
theorem processResponse_raw_validation (jsonLoads : String → Dict)
    (cmd : Option Dict) (s : String) :
    (s.length > 0 ∧ s.front = '\x7b' ∧ s.back = '\x7d' →
       (dictContains (jsonLoads s) "error" = true →
          ProcessResponse jsonLoads (.raw s) cmd
            = .error (HandleError (dictGetD (jsonLoads s) "error" .none)))
       ∧ (dictContains (jsonLoads s) "error" = false → dictLen (jsonLoads s) ≠ 0 →
          ProcessResponse jsonLoads (.raw s) cmd = .ok (.dict (jsonLoads s)))
       ∧ (dictContains (jsonLoads s) "error" = false → dictLen (jsonLoads s) = 0 →
          ProcessResponse jsonLoads (.raw s) cmd
            = .error (.clientError (.emptyResponse cmd (.dict (jsonLoads s)))
                (.str "emptyresponseerror"))))
    ∧ (s = "" →
        ProcessResponse jsonLoads (.raw s) cmd
          = .error (.clientError (.emptyResponse cmd (.str s)) (.str "emptyresponseerror")))
    ∧ (¬(s.length > 0 ∧ s.front = '\x7b' ∧ s.back = '\x7d') → s ≠ "" →
        ProcessResponse jsonLoads (.raw s) cmd = .ok (.str s)) := by
  refine ⟨fun hb => ⟨?_, ?_, ?_⟩, ?_, ?_⟩
  · intro herr
    simp [ProcessResponse, hb, herr]
  · intro herr hlen
    simp [ProcessResponse, hb, herr, hlen]
  · intro herr hlen
    simp [ProcessResponse, hb, herr, hlen]
  · intro hs
    subst hs
    simp [ProcessResponse]
  · intro hb hs
    have hlen : s.length ≠ 0 := by
      intro h0
      apply hs
      cases s with
      | mk data =>
          cases data with
          | nil => rfl
          | cons c cs => simp [String.length] at h0
    simp [ProcessResponse, hb, hlen]

/-- Witness for `processResponse_raw_validation`: the spec's example
`"{\"result\":1}"` decodes to `{"result": 1}`, has no `error` key, and is
returned as the decoded mapping; the empty raw response fails with the
`emptyresponseerror` kind; a non-JSON raw payload is returned unchanged. -/
theorem processResponse_raw_validation_witness :
    ("\x7b\"result\":1\x7d" : String).length > 0
    ∧ ProcessResponse jsonLoads0 (.raw "\x7b\"result\":1\x7d") Option.none
        = .ok (.dict [("result", PyValue.int 1)])
    ∧ ProcessResponse jsonLoads0 (.raw "") (some [("command", PyValue.str "GetDetectionHistory")])
        = .error (.clientError
            (.emptyResponse (some [("command", PyValue.str "GetDetectionHistory")]) (.str ""))
            (.str "emptyresponseerror"))
    ∧ ProcessResponse jsonLoads0 (.raw "imagebytes") Option.none = .ok (.str "imagebytes") := by
  refine ⟨by decide, ?_, ?_, ?_⟩
  · have h := (processResponse_raw_validation jsonLoads0 Option.none "\x7b\"result\":1\x7d").1
      (by refine ⟨by decide, by decide, by decide⟩)
    exact h.2.1 rfl (by decide)
  · exact (processResponse_raw_validation jsonLoads0
      (some [("command", PyValue.str "GetDetectionHistory")]) "").2.1 rfl
  · exact (processResponse_raw_validation jsonLoads0 Option.none "imagebytes").2.2
      (by decide) (by decide)

/-- C9: the raw response consisting exactly of `"{}"` decodes to the empty
mapping, has no `error` key, and then fails with the `emptyresponseerror`
kind, because the emptiness check is applied to the decoded mapping rather
than to the original raw text — a syntactically valid, non-empty JSON response
fails as empty. -/
theorem processResponse_empty_json_object (jsonLoads : String → Dict) (cmd : Option Dict)
    (h : jsonLoads "\x7b\x7d" = []) :
    ("\x7b\x7d" : String).length ≠ 0
    ∧ dictContains (jsonLoads "\x7b\x7d") "error" = false
    ∧ ProcessResponse jsonLoads (.raw "\x7b\x7d") cmd
        = .error (.clientError (.emptyResponse cmd (.dict [])) (.str "emptyresponseerror")) := by
  refine ⟨by decide, by rw [h]; rfl, ?_⟩
  have hb : (("\x7b\x7d" : String).length > 0 ∧ ("\x7b\x7d" : String).front = '\x7b' ∧
      ("\x7b\x7d" : String).back = '\x7d') := by decide
  simp only [ProcessResponse]
  rw [if_pos hb, h]
  simp [dictContains, dictLen]

/-- Witness for `processResponse_empty_json_object` at the concrete
`json.loads` model. -/
theorem processResponse_empty_json_object_witness :
    jsonLoads0 "\x7b\x7d" = ([] : Dict)
    ∧ ProcessResponse jsonLoads0 (.raw "\x7b\x7d") (some [("command", PyValue.str "GetDetectionHistory")])
        = .error (.clientError
            (.emptyResponse (some [("command", PyValue.str "GetDetectionHistory")]) (.dict []))
            (.str "emptyresponseerror")) := by
  refine ⟨rfl, ?_⟩
  exact (processResponse_empty_json_object jsonLoads0
    (some [("command", PyValue.str "GetDetectionHistory")]) rfl).2.2

/-! ## Claim theorems: teardown -/

/-- C8 counterexample: a failure while releasing the subscriber is NOT
caught: `Destroy` propagates the exception and, because of it, neither
releases the owned context nor clears the `_ctx`/`_subscriber` references —
so teardown is not failure-isolating for every owned resource, and the call
can raise. -/
theorem destroy_subscriber_failure_counterexample :
    (Destroy { commandsocketFails := false, configurationsocketFails := false,
               subscriberFails := true, ctxownFails := false }
             { commandsocket := true, configurationsocket := true, subscriber := true,
               ctxown := true, ctx := true }).2 = true
    ∧ (Destroy { commandsocketFails := false, configurationsocketFails := false,
                 subscriberFails := true, ctxownFails := false }
               { commandsocket := true, configurationsocket := true, subscriber := true,
                 ctxown := true, ctx := true }).1.subscriber = true
    ∧ (Destroy { commandsocketFails := false, configurationsocketFails := false,
                 subscriberFails := true, ctxownFails := false }
               { commandsocket := true, configurationsocket := true, subscriber := true,
                 ctxown := true, ctx := true }).1.ctxown = true
    ∧ (Destroy { commandsocketFails := false, configurationsocketFails := false,
                 subscriberFails := true, ctxownFails := false }
               { commandsocket := true, configurationsocket := true, subscriber := true,
                 ctxown := true, ctx := true }).1.ctx = true := by
  decide

/-- C8 amended: when no individual release fails, `Destroy` does not
raise, clears every reference, and calling it again is a raise-free no-op;
failures releasing the command socket, configuration socket or owned context
are caught and do not prevent releasing the remaining resources (the call
still does not raise and still clears `_ctx`); but a failure releasing the
subscriber propagates out of `Destroy`. -/
theorem destroy_idempotent_and_partially_isolating :
    ∀ (b : DestroyBehavior) (s : ClientState),
    ((b.commandsocketFails = false ∧ b.configurationsocketFails = false ∧
      b.subscriberFails = false ∧ b.ctxownFails = false) →
        Destroy b s = (clearedState, false) ∧ Destroy b (Destroy b s).1 = (clearedState, false))
    ∧ ((s.subscriber = true → b.subscriberFails = false) →
        (Destroy b s).2 = false
        ∧ (Destroy b s).1.ctx = false
        ∧ (b.commandsocketFails = false → (Destroy b s).1.commandsocket = false)
        ∧ (b.configurationsocketFails = false → (Destroy b s).1.configurationsocket = false)
        ∧ (b.ctxownFails = false → (Destroy b s).1.ctxown = false)
        ∧ (Destroy b s).1.subscriber = false)
    ∧ (s.subscriber = true → b.subscriberFails = true → (Destroy b s).2 = true) := by
  intro b s
  obtain ⟨b1, b2, b3, b4⟩ := b
  obtain ⟨s1, s2, s3, s4, s5⟩ := s
  revert b1 b2 b3 b4 s1 s2 s3 s4 s5
  decide

/-- Witness for `destroy_idempotent_and_partially_isolating`: a fully live
client with no failing release is cleared without raising, twice. -/
theorem destroy_idempotent_witness :
    Destroy { commandsocketFails := false, configurationsocketFails := false,
              subscriberFails := false, ctxownFails := false }
            { commandsocket := true, configurationsocket := true, subscriber := true,
              ctxown := true, ctx := true } = (clearedState, false) :=
  ((destroy_idempotent_and_partially_isolating
      { commandsocketFails := false, configurationsocketFails := false,
        subscriberFails := false, ctxownFails := false }
      { commandsocket := true, configurationsocket := true, subscriber := true,
        ctxown := true, ctx := true }).1 ⟨rfl, rfl, rfl, rfl⟩).1

theorem dictContains_condSet_ne (d : Dict) (c : Prop) [Decidable c] (k k' : String)
    (v : PyValue) (h : k' ≠ k) :
    dictContains (if c then dictSet d k v else d) k' = dictContains d k' := by
  by_cases hc : c
  · simp [hc, dictContains_dictSet, h]
  · simp [hc]

theorem dictContains_condSet_self (d : Dict) (c : Prop) [Decidable c] (k : String)
    (v : PyValue) :
    dictContains (if c then dictSet d k v else d) k = (dictContains d k || decide c) := by
  by_cases hc : c
  · simp [hc, dictContains_dictSet]
  · simp [hc]

theorem dictGetD_condSet_ne (d : Dict) (c : Prop) [Decidable c] (k k' : String)
    (v dflt : PyValue) (h : k' ≠ k) :
    dictGetD (if c then dictSet d k v else d) k' dflt = dictGetD d k' dflt := by
  by_cases hc : c
  · simp [hc, dictGetD_dictSet_ne _ _ _ _ _ h]
  · simp [hc]

/-- The `"command"` field of every `StopTask` payload is `"StopTask"`. -/
theorem stopTask_getD_command (a : StopTaskArgs) :
    dictGetD (buildStopTaskCommand a) "command" (.str "") = .str "StopTask" := by
  simp [buildStopTaskCommand, dictGetD_condSet_ne, dictGetD]

/-- Key membership in a `StopTask` payload: each filter key is present exactly
when the corresponding argument is truthy; the two flag keys are always
present. -/
theorem stopTask_contains (a : StopTaskArgs) :
    dictContains (buildStopTaskCommand a) "taskId" = pyTruthy a.taskId
    ∧ dictContains (buildStopTaskCommand a) "taskIds" = pyTruthy a.taskIds
    ∧ dictContains (buildStopTaskCommand a) "taskType" = pyTruthy a.taskType
    ∧ dictContains (buildStopTaskCommand a) "taskTypes" = pyTruthy a.taskTypes
    ∧ dictContains (buildStopTaskCommand a) "cycleIndex" = pyTruthy a.cycleIndex
    ∧ dictContains (buildStopTaskCommand a) "waitForStop" = true
    ∧ dictContains (buildStopTaskCommand a) "removeTask" = true := by
  refine ⟨?_, ?_, ?_, ?_, ?_, ?_, ?_⟩ <;>
    simp [buildStopTaskCommand, dictContains_condSet_ne, dictContains_condSet_self,
      dictContains]

theorem dictContains_dictSet_mono (d : Dict) (k k' : String) (v : PyValue)
    (h : dictContains d k' = true) : dictContains (dictSet d k v) k' = true := by
  simp [dictContains_dictSet, h]

theorem dictContains_dictUpdate_mono (d other : Dict) (k : String)
    (h : dictContains d k = true) : dictContains (dictUpdate d other) k = true := by
  induction other generalizing d with
  | nil => exact h
  | cons p t ih =>
      rw [dictUpdate_cons]
      exact ih _ (dictContains_dictSet_mono _ _ _ _ h)

theorem dictContains_condSet_mono (d : Dict) (c : Prop) [Decidable c] (k k' : String)
    (v : PyValue) (h : dictContains d k' = true) :
    dictContains (if c then dictSet d k v else d) k' = true := by
  by_cases hc : c
  · simp [hc]
    exact dictContains_dictSet_mono _ _ _ _ h
  · simp [hc, h]

/-- The payload of `StartObjectDetectionTask`: the `"command"` field names the
operation (unless overridden through `vminitparams`/`kwargs`);
`targetupdatename` is always a key, even when left at its default `""`;
`maxnumdetection` and `maxnumfastdetection` are keys whenever not explicitly
passed as `None` — in particular at their defaults `0` and `1`; `locationName`
and `cycleIndex` are keys exactly when passed non-`None`, and `taskId` exactly
when truthy. -/
theorem startObjectDetectionTask_payload (a : StartObjectDetectionTaskArgs) :
    (dictContains a.vminitparams "command" = false → dictContains a.kwargs "command" = false →
      dictGetD (buildStartObjectDetectionTaskCommand a) "command" (.str "")
        = .str "StartObjectDetectionTask")
    ∧ dictContains (buildStartObjectDetectionTaskCommand a) "targetupdatename" = true
    ∧ (dictContains a.vminitparams "maxnumdetection" = false →
       dictContains a.kwargs "maxnumdetection" = false →
      dictContains (buildStartObjectDetectionTaskCommand a) "maxnumdetection"
        = !isNone a.maxnumdetection)
    ∧ (dictContains a.vminitparams "maxnumfastdetection" = false →
       dictContains a.kwargs "maxnumfastdetection" = false →
      dictContains (buildStartObjectDetectionTaskCommand a) "maxnumfastdetection"
        = !isNone a.maxnumfastdetection)
    ∧ (dictContains a.vminitparams "locationName" = false →
       dictContains a.kwargs "locationName" = false →
      dictContains (buildStartObjectDetectionTaskCommand a) "locationName"
        = !isNone a.locationName)
    ∧ (dictContains a.vminitparams "taskId" = false →
       dictContains a.kwargs "taskId" = false →
      dictContains (buildStartObjectDetectionTaskCommand a) "taskId" = pyTruthy a.taskId)
    ∧ (dictContains a.vminitparams "cycleIndex" = false →
       dictContains a.kwargs "cycleIndex" = false →
      dictContains (buildStartObjectDetectionTaskCommand a) "cycleIndex"
        = !isNone a.cycleIndex) := by
  refine ⟨?_, ?_, ?_, ?_, ?_, ?_, ?_⟩
  · intro hv hk
    simp [buildStartObjectDetectionTaskCommand, dictGetD_dictUpdate_notin _ _ _ _ hk,
      dictGetD_dictUpdate_notin _ _ _ _ hv, dictGetD_condSet_ne, dictGetD]
  · simp only [buildStartObjectDetectionTaskCommand]
    apply dictContains_dictUpdate_mono
    repeat (apply dictContains_condSet_mono)
    apply dictContains_dictUpdate_mono
    simp [dictContains]
  all_goals
    intro hv hk
    simp [buildStartObjectDetectionTaskCommand, dictContains_dictUpdate_notin _ _ _ hk,
      dictContains_dictUpdate_notin _ _ _ hv, dictContains_condSet_ne,
      dictContains_condSet_self, dictContains]

theorem pyTruthy_none : pyTruthy PyValue.none = false := rfl

/-! ## Claim theorems: payload construction -/

/-- C7 counterexample: with every optional argument left at its default,
the `StartObjectDetectionTask` payload still contains the keys
`targetupdatename` (default `""`), `maxnumdetection` (default `0`) and
`maxnumfastdetection` (default `1`), and the `StopTask` payload still contains
`waitForStop` (default `True`) and `removeTask` (default `False`) — so
optional arguments left at their defaults can appear as payload keys,
contradicting the claim. -/
theorem payload_default_keys_counterexample :
    dictContains (buildStartObjectDetectionTaskCommand {}) "targetupdatename" = true
    ∧ dictContains (buildStartObjectDetectionTaskCommand {}) "maxnumdetection" = true
    ∧ dictContains (buildStartObjectDetectionTaskCommand {}) "maxnumfastdetection" = true
    ∧ dictContains (buildStopTaskCommand {}) "waitForStop" = true
    ∧ dictContains (buildStopTaskCommand {}) "removeTask" = true := by
  decide

/-- C7 amended: every built payload carries `"command"` equal to the
operation name (for `StartObjectDetectionTask`, provided `vminitparams` and
`kwargs` do not override it); optional arguments guarded by a `None`-presence
or truthiness check appear as keys exactly when supplied (non-`None`, resp.
truthy); but arguments with non-`None` defaults — `targetupdatename`,
`maxnumdetection`, `maxnumfastdetection`, `waitForStop`, `removeTask` — appear
even when the caller leaves them at their defaults. -/
theorem payload_optional_fields (a : StartObjectDetectionTaskArgs) (b : StopTaskArgs) :
    dictGetD (buildStopTaskCommand b) "command" (.str "") = .str "StopTask"
    ∧ dictContains (buildStopTaskCommand b) "taskId" = pyTruthy b.taskId
    ∧ dictContains (buildStopTaskCommand b) "taskIds" = pyTruthy b.taskIds
    ∧ dictContains (buildStopTaskCommand b) "taskType" = pyTruthy b.taskType
    ∧ dictContains (buildStopTaskCommand b) "taskTypes" = pyTruthy b.taskTypes
    ∧ dictContains (buildStopTaskCommand b) "cycleIndex" = pyTruthy b.cycleIndex
    ∧ dictContains (buildStopTaskCommand b) "waitForStop" = true
    ∧ dictContains (buildStopTaskCommand b) "removeTask" = true
    ∧ (dictContains a.vminitparams "command" = false → dictContains a.kwargs "command" = false →
        dictGetD (buildStartObjectDetectionTaskCommand a) "command" (.str "")
          = .str "StartObjectDetectionTask")
    ∧ dictContains (buildStartObjectDetectionTaskCommand a) "targetupdatename" = true
    ∧ (dictContains a.vminitparams "maxnumdetection" = false →
       dictContains a.kwargs "maxnumdetection" = false →
        dictContains (buildStartObjectDetectionTaskCommand a) "maxnumdetection"
          = !isNone a.maxnumdetection)
    ∧ (dictContains a.vminitparams "maxnumfastdetection" = false →
       dictContains a.kwargs "maxnumfastdetection" = false →
        dictContains (buildStartObjectDetectionTaskCommand a) "maxnumfastdetection"
          = !isNone a.maxnumfastdetection)
    ∧ (dictContains a.vminitparams "locationName" = false →
       dictContains a.kwargs "locationName" = false →
        dictContains (buildStartObjectDetectionTaskCommand a) "locationName"
          = !isNone a.locationName)
    ∧ (dictContains a.vminitparams "taskId" = false →
       dictContains a.kwargs "taskId" = false →
        dictContains (buildStartObjectDetectionTaskCommand a) "taskId" = pyTruthy a.taskId) := by
  obtain ⟨h1, h2, h3, h4, h5, h6, h7⟩ := stopTask_contains b
  obtain ⟨g1, g2, g3, g4, g5, g6, _⟩ := startObjectDetectionTask_payload a
  exact ⟨stopTask_getD_command b, h1, h2, h3, h4, h5, h6, h7, g1, g2, g3, g4, g5, g6⟩

/-- Witness for `payload_optional_fields`: a default-argument
`StartObjectDetectionTask` call (empty `vminitparams`, no `kwargs`) and a
`StopTask` call with a supplied `taskId`. -/
theorem payload_optional_fields_witness :
    dictGetD (buildStopTaskCommand { taskId := PyValue.str "t1" }) "command" (.str "")
      = .str "StopTask"
    ∧ dictContains (buildStopTaskCommand { taskId := PyValue.str "t1" }) "taskId" = true
    ∧ dictGetD (buildStartObjectDetectionTaskCommand {}) "command" (.str "")
      = .str "StartObjectDetectionTask"
    ∧ dictContains (buildStartObjectDetectionTaskCommand {}) "maxnumdetection" = true := by
  obtain ⟨w1, w2, -, -, -, -, -, -, w9, -, w11, -⟩ :=
    payload_optional_fields {} { taskId := PyValue.str "t1" }
  exact ⟨w1, w2, w9 rfl rfl, w11 rfl rfl⟩

/-- C10: optional-field inclusion is decided by truthiness, not presence:
an empty-string caller identifier is never injected into command or
configuration payloads (the client behaves exactly as if no caller id were
configured), and a falsy `StopTask` filter argument — empty-string `taskId`,
`0` `cycleIndex`, empty-list `taskIds`/`taskTypes` — is omitted from the
payload exactly as if it had not been supplied. -/
theorem falsy_optionals_omitted :
    (∀ command : Dict, injectCallerid (some "") command = command
        ∧ injectCallerid Option.none command = command)
    ∧ (∀ (jsonLoads : String → Dict) (sendCommand : Dict → Bool → Bool → Response)
        (command : Dict) (fireandforget blockwait : Bool),
        ExecuteCommand jsonLoads sendCommand (some "") command fireandforget blockwait
          = ExecuteCommand jsonLoads sendCommand Option.none command fireandforget blockwait)
    ∧ (∀ (jsonLoads : String → Dict) (sendConfiguration : Dict → Bool → Response)
        (configuration : Dict) (fireandforget : Bool),
        SendConfiguration jsonLoads sendConfiguration (some "") configuration fireandforget
          = SendConfiguration jsonLoads sendConfiguration Option.none configuration fireandforget)
    ∧ (∀ b : StopTaskArgs,
        (pyTruthy b.taskId = false →
          buildStopTaskCommand b = buildStopTaskCommand { b with taskId := .none })
        ∧ (pyTruthy b.taskIds = false →
          buildStopTaskCommand b = buildStopTaskCommand { b with taskIds := .none })
        ∧ (pyTruthy b.taskTypes = false →
          buildStopTaskCommand b = buildStopTaskCommand { b with taskTypes := .none })
        ∧ (pyTruthy b.cycleIndex = false →
          buildStopTaskCommand b = buildStopTaskCommand { b with cycleIndex := .none })
        ∧ dictContains (buildStopTaskCommand b) "taskId" = pyTruthy b.taskId
        ∧ dictContains (buildStopTaskCommand b) "cycleIndex" = pyTruthy b.cycleIndex)
    ∧ pyTruthy (.str "") = false ∧ pyTruthy (.int 0) = false ∧ pyTruthy (.list []) = false := by
  refine ⟨?_, ?_, ?_, ?_, rfl, by decide, rfl⟩
  · intro command
    constructor <;> simp [injectCallerid, calleridTruthy]
  · intro jsonLoads sendCommand command fireandforget blockwait
    simp [ExecuteCommand, injectCallerid, calleridTruthy]
  · intro jsonLoads sendConfiguration configuration fireandforget
    simp [SendConfiguration, injectCallerid, calleridTruthy]
  · intro b
    refine ⟨?_, ?_, ?_, ?_, (stopTask_contains b).1, (stopTask_contains b).2.2.2.2.1⟩ <;>
      intro h <;> simp [buildStopTaskCommand, h, pyTruthy_none]

/-- Witness for `falsy_optionals_omitted`: the empty-string caller id leaves a
`Ping` payload untouched, a `StopTask` with empty-string `taskId` omits the
key, and a `StopTask` with `cycleIndex=0` builds the same payload as one with
`cycleIndex` unsupplied. -/
theorem falsy_optionals_omitted_witness :
    injectCallerid (some "") [("command", PyValue.str "Ping")] = [("command", PyValue.str "Ping")]
    ∧ dictContains (buildStopTaskCommand { taskId := PyValue.str "" }) "taskId" = false
    ∧ buildStopTaskCommand { cycleIndex := PyValue.int 0 } = buildStopTaskCommand {} := by
  refine ⟨(falsy_optionals_omitted.1 [("command", PyValue.str "Ping")]).1, ?_, ?_⟩
  · have h := (falsy_optionals_omitted.2.2.2.1 { taskId := PyValue.str "" }).2.2.2.2.1
    rw [h]
    rfl
  · exact (falsy_optionals_omitted.2.2.2.1 { cycleIndex := PyValue.int 0 }).2.2.2.1 rfl

end VisionClient
